import Mathlib

/-!
Verification of the access-control and tenancy model of the AutoPro garage
management application.  The model is a shallow embedding of the SQL schema,
row-level-security (RLS) policies, triggers and foreign-key actions declared
in the repository's migration file.  UUID values are modelled as `Nat`,
timestamps as `Nat`, `DECIMAL` amounts as `Int`, nullable columns as `Option`.

Each RLS policy becomes a boolean predicate over the database state, the
caller's identity and the target row(s); the per-command decision for a table
is the disjunction of the `USING` clauses of the applicable policies (for the
existing row) conjoined with the disjunction of the `WITH CHECK` clauses (for
the new row), which is PostgreSQL's semantics for permissive policies.
A table with no policy for a command denies that command (RLS default deny).
-/

namespace AutoSales

/-- The `app_role` enum: `'admin' | 'responsable' | 'employe'`. -/
inductive AppRole where
  | admin
  | responsable
  | employe
deriving DecidableEq, Repr

/-- A row of `public.garages`. -/
structure GarageRow where
  id : Nat
  nom : String
  adresse : Option String
  telephone : Option String
  email : Option String
  created_at : Nat
  updated_at : Nat
deriving DecidableEq, Repr

/-- A row of `public.profiles`.  `user_id` is `UNIQUE`; `garage_id` is
nullable (`REFERENCES garages ON DELETE SET NULL`). -/
structure ProfileRow where
  id : Nat
  user_id : Nat
  nom : String
  prenom : String
  email : Option String
  telephone : Option String
  garage_id : Option Nat
  created_at : Nat
  updated_at : Nat
deriving DecidableEq, Repr

/-- A row of `public.user_roles`; `(user_id, role)` is `UNIQUE`. -/
structure UserRoleRow where
  id : Nat
  user_id : Nat
  role : AppRole
  created_at : Nat
deriving DecidableEq, Repr

/-- A row of `public.voitures`.  `garage_id` is `NOT NULL REFERENCES garages
ON DELETE CASCADE`, hence the non-optional type. -/
structure VoitureRow where
  id : Nat
  garage_id : Nat
  marque : String
  modele : String
  annee : Int
  prix : Int
  kilometrage : Int
  carburant : String
  etat : String
  disponible : Bool
  couleur : Option String
  description : Option String
  image_url : Option String
  created_at : Nat
  updated_at : Nat
deriving DecidableEq, Repr

/-- A row of `public.clients`.  `garage_id` is `NOT NULL REFERENCES garages
ON DELETE CASCADE`. -/
structure ClientRow where
  id : Nat
  garage_id : Nat
  nom : String
  prenom : String
  email : Option String
  telephone : Option String
  adresse : Option String
  created_at : Nat
  updated_at : Nat
deriving DecidableEq, Repr

/-- A row of `public.ventes`.  `voiture_id`, `client_id` and `employe_id` are
`NOT NULL ... ON DELETE RESTRICT`; `garage_id` is `NOT NULL ... ON DELETE
CASCADE`.  Note that the table has a `created_at` column but, unlike the
other tables, no `updated_at` column. -/
structure VenteRow where
  id : Nat
  voiture_id : Nat
  client_id : Nat
  employe_id : Nat
  garage_id : Nat
  prix_vente : Int
  date_vente : Nat
  notes : Option String
  created_at : Nat
deriving DecidableEq, Repr

/-- The database state: the six `public` tables. -/
structure Db where
  garages : List GarageRow
  profiles : List ProfileRow
  user_roles : List UserRoleRow
  voitures : List VoitureRow
  clients : List ClientRow
  ventes : List VenteRow
deriving DecidableEq, Repr

/-- The security-definer function `public.has_role(_user_id, _role)`:
`SELECT EXISTS (SELECT 1 FROM user_roles WHERE user_id = _user_id AND role =
_role)`. -/
def has_role (db : Db) (uid : Nat) (r : AppRole) : Bool :=
  db.user_roles.any (fun ur => ur.user_id == uid && decide (ur.role = r))

/-- The security-definer function `public.get_user_garage(_user_id)`:
`SELECT garage_id FROM profiles WHERE user_id = _user_id`.  A scalar SQL
function returns NULL when the query yields no row, and also when the
profile's `garage_id` is NULL; both cases are `none` here. -/
def get_user_garage (db : Db) (uid : Nat) : Option Nat :=
  (db.profiles.find? (fun p => p.user_id == uid)).bind (fun p => p.garage_id)

/-! ### RLS decisions for `garages`

Policies: "Admins can manage all garages" (`FOR ALL`, USING/CHECK
`has_role(uid,'admin')`) and "Users can view their garage" (`FOR SELECT`,
USING `id = get_user_garage(uid)`). -/

/-- SELECT on `garages`: admin `FOR ALL` policy or the own-garage view
policy. -/
def garages_select (db : Db) (uid : Nat) (row : GarageRow) : Bool :=
  has_role db uid .admin || some row.id == get_user_garage db uid

/-- INSERT on `garages`: only the admin `FOR ALL` policy has a CHECK. -/
def garages_insert (db : Db) (uid : Nat) (_new : GarageRow) : Bool :=
  has_role db uid .admin

/-- UPDATE on `garages`: admin USING on the old row and admin CHECK on the
new row. -/
def garages_update (db : Db) (uid : Nat) (_old _new : GarageRow) : Bool :=
  has_role db uid .admin && has_role db uid .admin

/-- DELETE on `garages`: only the admin `FOR ALL` policy. -/
def garages_delete (db : Db) (uid : Nat) (_row : GarageRow) : Bool :=
  has_role db uid .admin

/-! ### RLS decisions for `profiles`

Policies: "Users can view their own profile" (`FOR SELECT`, USING
`user_id = auth.uid()`), "Admins can manage all profiles" (`FOR ALL`,
admin), "Users can update their own profile" (`FOR UPDATE`, USING/CHECK
`user_id = auth.uid()`). -/

/-- SELECT on `profiles`. -/
def profiles_select (db : Db) (uid : Nat) (row : ProfileRow) : Bool :=
  row.user_id == uid || has_role db uid .admin

/-- INSERT on `profiles`: only the admin policy has a CHECK for INSERT. -/
def profiles_insert (db : Db) (uid : Nat) (_new : ProfileRow) : Bool :=
  has_role db uid .admin

/-- UPDATE on `profiles`: the old row must pass some USING (admin, or own
row), the new row must pass some CHECK (admin, or own row). -/
def profiles_update (db : Db) (uid : Nat) (old new : ProfileRow) : Bool :=
  (has_role db uid .admin || old.user_id == uid)
    && (has_role db uid .admin || new.user_id == uid)

/-- DELETE on `profiles`: only the admin `FOR ALL` policy. -/
def profiles_delete (db : Db) (uid : Nat) (_row : ProfileRow) : Bool :=
  has_role db uid .admin

/-! ### RLS decisions for `user_roles`

Policies: "Users can view their own roles" (`FOR SELECT`) and "Admins can
manage all roles" (`FOR ALL`). -/

/-- SELECT on `user_roles`. -/
def user_roles_select (db : Db) (uid : Nat) (row : UserRoleRow) : Bool :=
  row.user_id == uid || has_role db uid .admin

/-- INSERT on `user_roles`. -/
def user_roles_insert (db : Db) (uid : Nat) (_new : UserRoleRow) : Bool :=
  has_role db uid .admin

/-- UPDATE on `user_roles`. -/
def user_roles_update (db : Db) (uid : Nat) (_old _new : UserRoleRow) : Bool :=
  has_role db uid .admin && has_role db uid .admin

/-- DELETE on `user_roles`. -/
def user_roles_delete (db : Db) (uid : Nat) (_row : UserRoleRow) : Bool :=
  has_role db uid .admin

/-! ### RLS decisions for `voitures`

Policies: "Authenticated users can view cars from their garage"
(`FOR SELECT`, USING `garage_id = get_user_garage(uid) OR admin`) and
"Responsables and admins can manage cars" (`FOR ALL`, USING/CHECK
`(garage_id = get_user_garage(uid) AND responsable) OR admin`). -/

/-- USING/CHECK clause of "Responsables and admins can manage cars". -/
def manage_cars_clause (db : Db) (uid : Nat) (row : VoitureRow) : Bool :=
  (some row.garage_id == get_user_garage db uid && has_role db uid .responsable)
    || has_role db uid .admin

/-- SELECT on `voitures`: the view policy or the manage policy. -/
def voitures_select (db : Db) (uid : Nat) (row : VoitureRow) : Bool :=
  (some row.garage_id == get_user_garage db uid || has_role db uid .admin)
    || manage_cars_clause db uid row

/-- INSERT on `voitures`: CHECK of the manage policy. -/
def voitures_insert (db : Db) (uid : Nat) (new : VoitureRow) : Bool :=
  manage_cars_clause db uid new

/-- UPDATE on `voitures`: USING of the manage policy on the old row and its
CHECK on the new row. -/
def voitures_update (db : Db) (uid : Nat) (old new : VoitureRow) : Bool :=
  manage_cars_clause db uid old && manage_cars_clause db uid new

/-- DELETE on `voitures`: USING of the manage policy. -/
def voitures_delete (db : Db) (uid : Nat) (row : VoitureRow) : Bool :=
  manage_cars_clause db uid row

/-! ### RLS decisions for `clients`

Policies: "Users can view clients from their garage" (`FOR SELECT`) and
"Responsables and admins can manage clients" (`FOR ALL`), with the same
clauses as for `voitures`. -/

/-- USING/CHECK clause of "Responsables and admins can manage clients". -/
def manage_clients_clause (db : Db) (uid : Nat) (row : ClientRow) : Bool :=
  (some row.garage_id == get_user_garage db uid && has_role db uid .responsable)
    || has_role db uid .admin

/-- SELECT on `clients`. -/
def clients_select (db : Db) (uid : Nat) (row : ClientRow) : Bool :=
  (some row.garage_id == get_user_garage db uid || has_role db uid .admin)
    || manage_clients_clause db uid row

/-- INSERT on `clients`. -/
def clients_insert (db : Db) (uid : Nat) (new : ClientRow) : Bool :=
  manage_clients_clause db uid new

/-- UPDATE on `clients`. -/
def clients_update (db : Db) (uid : Nat) (old new : ClientRow) : Bool :=
  manage_clients_clause db uid old && manage_clients_clause db uid new

/-- DELETE on `clients`. -/
def clients_delete (db : Db) (uid : Nat) (row : ClientRow) : Bool :=
  manage_clients_clause db uid row

/-! ### RLS decisions for `ventes`

Policies: "Users can view sales from their garage" (`FOR SELECT`, USING
`garage_id = get_user_garage(uid) OR admin`), "Authenticated users can
create sales" (`FOR INSERT`, CHECK `garage_id = get_user_garage(uid)`), and
"Responsables and admins can manage sales" (`FOR UPDATE`).  There is no
DELETE policy, so DELETE is denied for every caller (RLS default deny). -/

/-- SELECT on `ventes`. -/
def ventes_select (db : Db) (uid : Nat) (row : VenteRow) : Bool :=
  some row.garage_id == get_user_garage db uid || has_role db uid .admin

/-- INSERT on `ventes`: CHECK of "Authenticated users can create sales",
the only INSERT-applicable policy.  A NULL `get_user_garage` makes the SQL
comparison non-true, hence denial. -/
def ventes_insert (db : Db) (uid : Nat) (new : VenteRow) : Bool :=
  some new.garage_id == get_user_garage db uid

/-- USING/CHECK clause of "Responsables and admins can manage sales". -/
def manage_sales_clause (db : Db) (uid : Nat) (row : VenteRow) : Bool :=
  (some row.garage_id == get_user_garage db uid && has_role db uid .responsable)
    || has_role db uid .admin

/-- UPDATE on `ventes`. -/
def ventes_update (db : Db) (uid : Nat) (old new : VenteRow) : Bool :=
  manage_sales_clause db uid old && manage_sales_clause db uid new

/-- DELETE on `ventes`: no policy exists for this command, so row-level
security denies it unconditionally. -/
def ventes_delete (_db : Db) (_uid : Nat) (_row : VenteRow) : Bool :=
  false

/-! ### Triggers

The trigger function `public.update_updated_at_column` sets
`NEW.updated_at = now()` before every UPDATE.  It is attached (by the
triggers `update_garages_updated_at`, `update_profiles_updated_at`,
`update_voitures_updated_at`, `update_clients_updated_at`) to exactly the
tables `garages`, `profiles`, `voitures` and `clients` — `ventes` has no
such trigger (and no `updated_at` column). -/

/-- The six tables of the schema. -/
inductive Table where
  | garages
  | profiles
  | user_roles
  | voitures
  | clients
  | ventes
deriving DecidableEq, Repr

/-- The tables to which a `BEFORE UPDATE` trigger running
`update_updated_at_column` is attached in the migration. -/
def updated_at_trigger_tables : List Table :=
  [.garages, .profiles, .voitures, .clients]

/-- The trigger `update_garages_updated_at`: `NEW.updated_at = now()`. -/
def update_garages_updated_at (now : Nat) (new : GarageRow) : GarageRow :=
  { new with updated_at := now }

/-- The trigger `update_profiles_updated_at`: `NEW.updated_at = now()`. -/
def update_profiles_updated_at (now : Nat) (new : ProfileRow) : ProfileRow :=
  { new with updated_at := now }

/-- The trigger `update_voitures_updated_at`: `NEW.updated_at = now()`. -/
def update_voitures_updated_at (now : Nat) (new : VoitureRow) : VoitureRow :=
  { new with updated_at := now }

/-- The trigger `update_clients_updated_at`: `NEW.updated_at = now()`. -/
def update_clients_updated_at (now : Nat) (new : ClientRow) : ClientRow :=
  { new with updated_at := now }

/-! ### Identity creation -/

/-- A row of `auth.users` as seen by `handle_new_user`: the id, the email,
and the `raw_user_meta_data` keys `nom` and `prenom` (absent keys are
`none`). -/
structure NewUser where
  id : Nat
  email : Option String
  meta_nom : Option String
  meta_prenom : Option String
deriving Repr

/-- Direct insertion into `profiles`, subject to the `UNIQUE(user_id)`
constraint: fails (constraint violation, `none`) when a profile with the
same `user_id` already exists. -/
def insertProfile (db : Db) (p : ProfileRow) : Option Db :=
  if db.profiles.any (fun q => q.user_id == p.user_id) then none
  else some { db with profiles := db.profiles ++ [p] }

/-- Insertion into `user_roles`, subject to `UNIQUE(user_id, role)`. -/
def insertUserRole (db : Db) (r : UserRoleRow) : Option Db :=
  if db.user_roles.any (fun q => q.user_id == r.user_id && decide (q.role = r.role))
  then none
  else some { db with user_roles := db.user_roles ++ [r] }

/-- The `profiles` row inserted by `handle_new_user`: `nom` defaults to
`'Nouveau'`, `prenom` to `'Utilisateur'`, the email is copied from the
identity, and `garage_id` takes the column default NULL. -/
def newProfileRow (u : NewUser) (pid now : Nat) : ProfileRow :=
  { id := pid
    user_id := u.id
    nom := u.meta_nom.getD "Nouveau"
    prenom := u.meta_prenom.getD "Utilisateur"
    email := u.email
    telephone := none
    garage_id := none
    created_at := now
    updated_at := now }

/-- The `user_roles` row inserted by `handle_new_user`. -/
def newUserRoleRow (u : NewUser) (rid now : Nat) : UserRoleRow :=
  { id := rid, user_id := u.id, role := .employe, created_at := now }

/-- The trigger function `public.handle_new_user`, fired `AFTER INSERT ON
auth.users`: inserts the default profile, then the `'employe'` role.
`pid` and `rid` stand for the generated row ids and `now` for the creation
timestamp.  Either insert failing its uniqueness constraint aborts the
whole transaction (`none`). -/
def handle_new_user (db : Db) (u : NewUser) (pid rid now : Nat) : Option Db :=
  (insertProfile db (newProfileRow u pid now)).bind
    (fun db1 => insertUserRole db1 (newUserRoleRow u rid now))

/-! ### Row updates and foreign-key delete actions -/

/-- The SQL statement `UPDATE profiles SET ... WHERE user_id = uid` under
the `update_profiles_updated_at` trigger: every row matching the filter is
replaced by the supplied new row with its `updated_at` refreshed. -/
def applyProfileUpdate (db : Db) (uid : Nat) (new : ProfileRow) (now : Nat) :
    Db :=
  { db with
    profiles := db.profiles.map
      (fun p => if p.user_id == uid then update_profiles_updated_at now new
                else p) }

/-- Deleting a row of `voitures`: `ventes.voiture_id` is `ON DELETE
RESTRICT`, so the delete fails while some sale references the vehicle. -/
def deleteVoiture (db : Db) (vid : Nat) : Option Db :=
  if db.ventes.any (fun s => s.voiture_id == vid) then none
  else some { db with voitures := db.voitures.filter (fun v => v.id != vid) }

/-- Deleting a row of `clients`: `ventes.client_id` is `ON DELETE
RESTRICT`. -/
def deleteClient (db : Db) (cid : Nat) : Option Db :=
  if db.ventes.any (fun s => s.client_id == cid) then none
  else some { db with clients := db.clients.filter (fun c => c.id != cid) }

/-- Deleting a row of `profiles` directly: `ventes.employe_id` is
`ON DELETE RESTRICT`. -/
def deleteProfile (db : Db) (pid : Nat) : Option Db :=
  if db.ventes.any (fun s => s.employe_id == pid) then none
  else some { db with profiles := db.profiles.filter (fun p => p.id != pid) }

/-- Deleting a row of `garages`.  Foreign-key actions: `voitures.garage_id`,
`clients.garage_id` and `ventes.garage_id` are `ON DELETE CASCADE`, so rows
of those tables referencing the garage are deleted with it;
`profiles.garage_id` is `ON DELETE SET NULL`, so referencing profiles are
kept with their garage reference cleared.  A sale that survives the cascade
(its own garage differs) but references a cascaded vehicle or client makes
its `ON DELETE RESTRICT` constraint fire and aborts the delete. -/
def deleteGarage (db : Db) (g : Nat) : Option Db :=
  let keptVentes := db.ventes.filter (fun s => s.garage_id != g)
  if keptVentes.any (fun s =>
      db.voitures.any (fun v => v.id == s.voiture_id && v.garage_id == g)
        || db.clients.any (fun c => c.id == s.client_id && c.garage_id == g))
  then none
  else some
    { db with
      garages := db.garages.filter (fun x => x.id != g)
      voitures := db.voitures.filter (fun v => v.garage_id != g)
      clients := db.clients.filter (fun c => c.garage_id != g)
      ventes := keptVentes
      profiles := db.profiles.map
        (fun p => if p.garage_id == some g then { p with garage_id := none }
                  else p) }

/-! ### Concrete fixtures used to evaluate the model -/

/-- A garage row with the given id and default contact fields. -/
def sampleGarage (i : Nat) : GarageRow :=
  { id := i, nom := "Garage", adresse := none, telephone := none
    email := none, created_at := 0, updated_at := 0 }

/-- A profile row with the given id, identity and garage assignment. -/
def sampleProfile (i u : Nat) (g : Option Nat) : ProfileRow :=
  { id := i, user_id := u, nom := "N", prenom := "P", email := none
    telephone := none, garage_id := g, created_at := 0, updated_at := 0 }

/-- A role-assignment row. -/
def sampleUserRole (i u : Nat) (r : AppRole) : UserRoleRow :=
  { id := i, user_id := u, role := r, created_at := 0 }

/-- A vehicle row with the given id and garage. -/
def sampleVoiture (i g : Nat) : VoitureRow :=
  { id := i, garage_id := g, marque := "M", modele := "X", annee := 2020
    prix := 10000, kilometrage := 0, carburant := "essence", etat := "neuf"
    disponible := true, couleur := none, description := none
    image_url := none, created_at := 0, updated_at := 0 }

/-- A client row with the given id and garage. -/
def sampleClient (i g : Nat) : ClientRow :=
  { id := i, garage_id := g, nom := "C", prenom := "D", email := none
    telephone := none, adresse := none, created_at := 0, updated_at := 0 }

/-- A sale row with the given id, references and garage. -/
def sampleVente (i vo cl emp g : Nat) : VenteRow :=
  { id := i, voiture_id := vo, client_id := cl, employe_id := emp
    garage_id := g, prix_vente := 9000, date_vente := 0, notes := none
    created_at := 0 }

/-- A database with two garages and one admin (identity 1) whose own profile
is assigned to garage 1. -/
def dbAdmin : Db :=
  { garages := [sampleGarage 1, sampleGarage 2]
    profiles := [sampleProfile 100 1 (some 1)]
    user_roles := [sampleUserRole 200 1 .admin]
    voitures := [sampleVoiture 10 2]
    clients := [sampleClient 20 2]
    ventes := [sampleVente 30 10 20 100 2] }

/-- A database with a manager (identity 2, garage 1, `responsable` role
only) and an employee (identity 3, garage 1, `employe` role only). -/
def dbManager : Db :=
  { garages := [sampleGarage 1, sampleGarage 2]
    profiles := [sampleProfile 101 2 (some 1), sampleProfile 102 3 (some 1)]
    user_roles := [sampleUserRole 201 2 .responsable,
                   sampleUserRole 202 3 .employe]
    voitures := [sampleVoiture 11 1, sampleVoiture 10 2]
    clients := [sampleClient 21 1, sampleClient 20 2]
    ventes := [sampleVente 30 11 21 101 1] }

/-- A database holding one sale in garage 1 and one in garage 2, with no
sale referencing a vehicle or client of the other garage. -/
def dbTwoSales : Db :=
  { garages := [sampleGarage 1, sampleGarage 2]
    profiles := []
    user_roles := []
    voitures := []
    clients := []
    ventes := [sampleVente 30 10 20 100 1, sampleVente 31 12 22 102 2] }

/-- The state of `dbTwoSales` after `deleteGarage _ 1`: garage 1 and its
sale are gone, the garage-2 sale survives. -/
def dbTwoSalesAfter : Db :=
  { garages := [sampleGarage 2]
    profiles := []
    user_roles := []
    voitures := []
    clients := []
    ventes := [sampleVente 31 12 22 102 2] }

/-- The empty database. -/
def dbEmpty : Db :=
  { garages := [], profiles := [], user_roles := []
    voitures := [], clients := [], ventes := [] }

/-! ### Helper lemmas -/

/-- Comparing `some a` with `none` under `BEq` is `false`. -/
theorem some_beq_none (a : Nat) : (some a == (none : Option Nat)) = false :=
  rfl

/-- Characterisation of a successful `deleteGarage`: each table of the
resulting state in terms of the original one. -/
theorem deleteGarage_eq (db : Db) (g : Nat) (db2 : Db)
    (h : deleteGarage db g = some db2) :
    db2.garages = db.garages.filter (fun x => x.id != g) ∧
    db2.voitures = db.voitures.filter (fun v => v.garage_id != g) ∧
    db2.clients = db.clients.filter (fun c => c.garage_id != g) ∧
    db2.ventes = db.ventes.filter (fun s => s.garage_id != g) ∧
    db2.profiles = db.profiles.map
      (fun p => if p.garage_id == some g then { p with garage_id := none }
                else p) ∧
    db2.user_roles = db.user_roles := by
  simp only [deleteGarage] at h
  split at h
  · exact absurd h (by simp)
  · rw [Option.some_inj] at h
    subst h
    exact ⟨rfl, rfl, rfl, rfl, rfl, rfl⟩

/-! ### Claim theorems -/

/-- C2.  Sale insert is permitted iff the caller's own profile exists and
its `garage_id` equals the inserted row's `garage_id`; in every other case
— admin or not, mismatched garage, profile without garage, or no profile at
all — it is denied. -/
theorem sale_insert_iff_own_garage (db : Db) (uid : Nat) (row : VenteRow) :
    ventes_insert db uid row = true ↔
      ∃ p, db.profiles.find? (fun q => q.user_id == uid) = some p ∧
        p.garage_id = some row.garage_id := by
  simp only [ventes_insert, beq_iff_eq]
  rw [eq_comm]
  simp [get_user_garage, Option.bind_eq_some]

/-- C6.  No RLS delete rule exists for sales: the delete decision is
`false` for every caller and every sale row; a sale disappears only through
the garage-delete cascade — it survives a `deleteGarage` of a different
garage and is removed by a `deleteGarage` of its own garage. -/
theorem sale_delete_always_denied (db : Db) (uid g : Nat) (s : VenteRow)
    (db2 : Db) :
    ventes_delete db uid s = false ∧
      (deleteGarage db g = some db2 → s ∈ db.ventes → s.garage_id ≠ g →
        s ∈ db2.ventes) ∧
      (deleteGarage db g = some db2 → s.garage_id = g → s ∉ db2.ventes) := by
  refine ⟨rfl, ?_, ?_⟩ <;> intro h hm
  · intro hne
    rw [(deleteGarage_eq db g db2 h).2.2.2.1]
    simp only [List.mem_filter, bne_iff_ne, ne_eq]
    exact ⟨hm, hne⟩
  · rw [(deleteGarage_eq db g db2 h).2.2.2.1]
    simp [List.mem_filter, hm]

/-- Witness for C6, evaluated on `dbTwoSales`: deleting garage 1 keeps the
garage-2 sale. -/
theorem sale_delete_always_denied_witness :
    sampleVente 31 12 22 102 2 ∈ dbTwoSalesAfter.ventes :=
  (sale_delete_always_denied dbTwoSales 1 1 (sampleVente 31 12 22 102 2)
    dbTwoSalesAfter).2.1 (by decide) (by decide) (by decide)

/-- Counterexample to C1: identity 1 holds the admin role in `dbAdmin` and
its profile is in garage 1, yet inserting a sale under garage 2 is denied,
and deleting a sale is denied. -/
theorem admin_not_full_on_sales :
    has_role dbAdmin 1 .admin = true ∧
      ventes_insert dbAdmin 1 (sampleVente 31 10 20 100 2) = false ∧
      ventes_delete dbAdmin 1 (sampleVente 30 10 20 100 2) = false := by
  decide

/-- C1 (amended).  An identity with the admin role is permitted every
operation on garages, profiles, role assignments, vehicles and clients, and
select and update on sales, regardless of its own garage assignment; but
sale insert remains subject to the garage-match check (admin gets no
override there) and sale delete is denied. -/
theorem admin_full_access (db : Db) (uid : Nat)
    (ha : has_role db uid .admin = true) :
    (∀ r, garages_select db uid r = true) ∧
    (∀ r, garages_insert db uid r = true) ∧
    (∀ r s, garages_update db uid r s = true) ∧
    (∀ r, garages_delete db uid r = true) ∧
    (∀ r, profiles_select db uid r = true) ∧
    (∀ r, profiles_insert db uid r = true) ∧
    (∀ r s, profiles_update db uid r s = true) ∧
    (∀ r, profiles_delete db uid r = true) ∧
    (∀ r, user_roles_select db uid r = true) ∧
    (∀ r, user_roles_insert db uid r = true) ∧
    (∀ r s, user_roles_update db uid r s = true) ∧
    (∀ r, user_roles_delete db uid r = true) ∧
    (∀ r, voitures_select db uid r = true) ∧
    (∀ r, voitures_insert db uid r = true) ∧
    (∀ r s, voitures_update db uid r s = true) ∧
    (∀ r, voitures_delete db uid r = true) ∧
    (∀ r, clients_select db uid r = true) ∧
    (∀ r, clients_insert db uid r = true) ∧
    (∀ r s, clients_update db uid r s = true) ∧
    (∀ r, clients_delete db uid r = true) ∧
    (∀ r, ventes_select db uid r = true) ∧
    (∀ r s, ventes_update db uid r s = true) ∧
    (∀ r, ventes_insert db uid r = true ↔
      get_user_garage db uid = some r.garage_id) ∧
    (∀ r, ventes_delete db uid r = false) := by
  refine ⟨?_, ?_, ?_, ?_, ?_, ?_, ?_, ?_, ?_, ?_, ?_, ?_, ?_, ?_, ?_, ?_,
    ?_, ?_, ?_, ?_, ?_, ?_, ?_, ?_⟩ <;> intro r
  · simp [garages_select, ha]
  · simp [garages_insert, ha]
  · intro s
    simp [garages_update, ha]
  · simp [garages_delete, ha]
  · simp [profiles_select, ha]
  · simp [profiles_insert, ha]
  · intro s
    simp [profiles_update, ha]
  · simp [profiles_delete, ha]
  · simp [user_roles_select, ha]
  · simp [user_roles_insert, ha]
  · intro s
    simp [user_roles_update, ha]
  · simp [user_roles_delete, ha]
  · simp [voitures_select, manage_cars_clause, ha]
  · simp [voitures_insert, manage_cars_clause, ha]
  · intro s
    simp [voitures_update, manage_cars_clause, ha]
  · simp [voitures_delete, manage_cars_clause, ha]
  · simp [clients_select, manage_clients_clause, ha]
  · simp [clients_insert, manage_clients_clause, ha]
  · intro s
    simp [clients_update, manage_clients_clause, ha]
  · simp [clients_delete, manage_clients_clause, ha]
  · simp [ventes_select, ha]
  · intro s
    simp [ventes_update, manage_sales_clause, ha]
  · simp [ventes_insert, beq_iff_eq]
    exact eq_comm
  · simp [ventes_delete]

/-- Witness for the amended C1: the admin of `dbAdmin` may read and delete
the garage-2 vehicle although their own profile is in garage 1. -/
theorem admin_full_access_witness :
    voitures_select dbAdmin 1 (sampleVoiture 10 2) = true ∧
      voitures_delete dbAdmin 1 (sampleVoiture 10 2) = true := by
  have h := admin_full_access dbAdmin 1 (by decide)
  exact ⟨h.2.2.2.2.2.2.2.2.2.2.2.2.1 (sampleVoiture 10 2),
    h.2.2.2.2.2.2.2.2.2.2.2.2.2.2.2.1 (sampleVoiture 10 2)⟩

/-- A filtered update of a profile list leaves the first hit of the lookup
predicate equal to the new row, provided some row matched and the new row
still matches. -/
theorem find?_map_update (l : List ProfileRow) (uid : Nat)
    (new : ProfileRow) (hnu : new.user_id = uid)
    (hex : ∃ p ∈ l, p.user_id = uid) :
    (l.map (fun p => if p.user_id == uid then new else p)).find?
      (fun p => p.user_id == uid) = some new := by
  induction l with
  | nil => simp at hex
  | cons a t ih =>
    by_cases hA : a.user_id = uid
    · simp [hA, hnu]
    · rw [List.map_cons,
        show (if a.user_id == uid then new else a) = a by simp [hA],
        List.find?_cons_of_neg _ (by simp [hA])]
      obtain ⟨p, hp, hpu⟩ := hex
      rcases List.mem_cons.mp hp with h | h
      · exact absurd (h ▸ hpu) hA
      · exact ih ⟨p, h, hpu⟩

/-- C3.  The self-update rule on profiles checks only that the old and the
new row belong to the caller; in particular a non-admin may set an
arbitrary `garage_id` on their own profile, after which their resolved
garage is the new one and vehicles, clients and sales of that garage become
readable to them. -/
theorem self_update_reassigns_tenant (db : Db) (uid g now : Nat)
    (p new : ProfileRow) (hp : p ∈ db.profiles) (hpu : p.user_id = uid)
    (hnu : new.user_id = uid) (hng : new.garage_id = some g) :
    profiles_update db uid p new = true ∧
    get_user_garage (applyProfileUpdate db uid new now) uid = some g ∧
    (∀ v : VoitureRow, v.garage_id = g →
      voitures_select (applyProfileUpdate db uid new now) uid v = true) ∧
    (∀ c : ClientRow, c.garage_id = g →
      clients_select (applyProfileUpdate db uid new now) uid c = true) ∧
    (∀ s : VenteRow, s.garage_id = g →
      ventes_select (applyProfileUpdate db uid new now) uid s = true) := by
  have hgar : get_user_garage (applyProfileUpdate db uid new now) uid
      = some g := by
    unfold get_user_garage applyProfileUpdate
    rw [show (fun p : ProfileRow =>
          if p.user_id == uid then update_profiles_updated_at now new
          else p)
        = (fun p : ProfileRow =>
          if p.user_id == uid then update_profiles_updated_at now new
          else p) from rfl]
    rw [find?_map_update db.profiles uid (update_profiles_updated_at now new)
      (by simp [update_profiles_updated_at, hnu]) ⟨p, hp, hpu⟩]
    simp [update_profiles_updated_at, hng]
  refine ⟨?_, hgar, ?_, ?_, ?_⟩
  · simp [profiles_update, hpu, hnu]
  · intro v hv
    simp [voitures_select, hgar, hv]
  · intro c hc
    simp [clients_select, hgar, hc]
  · intro s hs
    simp [ventes_select, hgar, hs]

/-- Witness for C3: in `dbManager` the employee (identity 3, garage 1) may
rewrite their own profile to point at garage 2, and then sees the garage-2
vehicle. -/
theorem self_update_reassigns_tenant_witness :
    profiles_update dbManager 3 (sampleProfile 102 3 (some 1))
        (sampleProfile 102 3 (some 2)) = true ∧
      voitures_select
        (applyProfileUpdate dbManager 3 (sampleProfile 102 3 (some 2)) 5) 3
        (sampleVoiture 10 2) = true := by
  have h := self_update_reassigns_tenant dbManager 3 2 5
    (sampleProfile 102 3 (some 1)) (sampleProfile 102 3 (some 2))
    (by decide) (by decide) (by decide) (by decide)
  exact ⟨h.1, h.2.2.1 (sampleVoiture 10 2) (by decide)⟩

/-- C4.  A manager (`responsable`, not admin) with resolved garage `G` may
insert, update and delete vehicles and clients of garage `G` and is denied
those writes on any other garage; a caller with neither the `responsable`
nor the admin role (an employee) is denied all of these writes even on a
matching garage. -/
theorem manager_writes_scoped (db : Db) (uid G : Nat)
    (hr : has_role db uid .responsable = true)
    (ha : has_role db uid .admin = false)
    (hg : get_user_garage db uid = some G) :
    (∀ v : VoitureRow, v.garage_id = G →
      voitures_insert db uid v = true ∧ voitures_delete db uid v = true) ∧
    (∀ v w : VoitureRow, v.garage_id = G → w.garage_id = G →
      voitures_update db uid v w = true) ∧
    (∀ v : VoitureRow, v.garage_id ≠ G →
      voitures_insert db uid v = false ∧ voitures_delete db uid v = false ∧
        (∀ w, voitures_update db uid v w = false) ∧
        (∀ w, voitures_update db uid w v = false)) ∧
    (∀ c : ClientRow, c.garage_id = G →
      clients_insert db uid c = true ∧ clients_delete db uid c = true) ∧
    (∀ c d : ClientRow, c.garage_id = G → d.garage_id = G →
      clients_update db uid c d = true) ∧
    (∀ c : ClientRow, c.garage_id ≠ G →
      clients_insert db uid c = false ∧ clients_delete db uid c = false ∧
        (∀ d, clients_update db uid c d = false) ∧
        (∀ d, clients_update db uid d c = false)) ∧
    (∀ (db2 : Db) (uid2 : Nat),
      has_role db2 uid2 .responsable = false →
      has_role db2 uid2 .admin = false →
      (∀ v : VoitureRow, voitures_insert db2 uid2 v = false ∧
        voitures_delete db2 uid2 v = false ∧
        (∀ w, voitures_update db2 uid2 v w = false)) ∧
      (∀ c : ClientRow, clients_insert db2 uid2 c = false ∧
        clients_delete db2 uid2 c = false ∧
        (∀ d, clients_update db2 uid2 c d = false))) := by
  refine ⟨?_, ?_, ?_, ?_, ?_, ?_, ?_⟩
  · intro v hv
    constructor <;>
      simp [voitures_insert, voitures_delete, manage_cars_clause, hr, ha,
        hg, hv]
  · intro v w hv hw
    simp [voitures_update, manage_cars_clause, hr, ha, hg, hv, hw]
  · intro v hv
    refine ⟨?_, ?_, ?_, ?_⟩ <;>
      simp [voitures_insert, voitures_delete, voitures_update,
        manage_cars_clause, ha, hg, hv]
  · intro c hc
    constructor <;>
      simp [clients_insert, clients_delete, manage_clients_clause, hr, ha,
        hg, hc]
  · intro c d hc hd
    simp [clients_update, manage_clients_clause, hr, ha, hg, hc, hd]
  · intro c hc
    refine ⟨?_, ?_, ?_, ?_⟩ <;>
      simp [clients_insert, clients_delete, clients_update,
        manage_clients_clause, ha, hg, hc]
  · intro db2 uid2 hr2 ha2
    constructor <;> intro x <;> refine ⟨?_, ?_, ?_⟩ <;>
      simp [voitures_insert, voitures_delete, voitures_update,
        manage_cars_clause, clients_insert, clients_delete, clients_update,
        manage_clients_clause, hr2, ha2]

/-- Witness for C4, evaluated on `dbManager`: the manager (identity 2,
garage 1) may insert a garage-1 vehicle but not a garage-2 vehicle, and the
employee (identity 3) may not insert even a garage-1 vehicle. -/
theorem manager_writes_scoped_witness :
    voitures_insert dbManager 2 (sampleVoiture 12 1) = true ∧
      voitures_insert dbManager 2 (sampleVoiture 12 2) = false ∧
      voitures_insert dbManager 3 (sampleVoiture 12 1) = false := by
  have h := manager_writes_scoped dbManager 2 1 (by decide) (by decide)
    (by decide)
  exact ⟨(h.1 (sampleVoiture 12 1) rfl).1,
    (h.2.2.1 (sampleVoiture 12 2) (by decide)).1,
    ((h.2.2.2.2.2.2 dbManager 3 (by decide) (by decide)).1
      (sampleVoiture 12 1)).1⟩

/-- C5.  A caller without the admin role whose resolved garage is `G` can
select a vehicle, client or sale row iff the row's garage is `G`. -/
theorem reads_scoped_to_own_garage (db : Db) (uid G : Nat)
    (ha : has_role db uid .admin = false)
    (hg : get_user_garage db uid = some G) :
    (∀ v : VoitureRow, voitures_select db uid v = true ↔ v.garage_id = G) ∧
    (∀ c : ClientRow, clients_select db uid c = true ↔ c.garage_id = G) ∧
    (∀ s : VenteRow, ventes_select db uid s = true ↔ s.garage_id = G) := by
  refine ⟨?_, ?_, ?_⟩ <;> intro x <;>
    simp [voitures_select, manage_cars_clause, clients_select,
      manage_clients_clause, ventes_select, ha, hg, beq_iff_eq,
      and_comm] <;> tauto

/-- Witness for C5: the employee of garage 1 in `dbManager` sees the
garage-1 vehicle and not the garage-2 vehicle. -/
theorem reads_scoped_to_own_garage_witness :
    voitures_select dbManager 3 (sampleVoiture 11 1) = true ∧
      voitures_select dbManager 3 (sampleVoiture 10 2) = false := by
  have h := reads_scoped_to_own_garage dbManager 3 1 (by decide) (by decide)
  refine ⟨(h.1 (sampleVoiture 11 1)).mpr rfl, ?_⟩
  rcases Bool.eq_false_or_eq_true
      (voitures_select dbManager 3 (sampleVoiture 10 2)) with hb | hb
  · exact absurd ((h.1 _).mp hb) (by decide)
  · exact hb

/-- Counterexample to C7: sale update is a permitted operation (here for
the admin of `dbAdmin`), yet `ventes` is not among the tables carrying the
`update_updated_at_column` trigger — the `ventes` table has no `updated_at`
column at all, so a sale update refreshes no update timestamp. -/
theorem sale_update_has_no_timestamp :
    ventes_update dbAdmin 1 (sampleVente 30 10 20 100 2)
        (sampleVente 30 10 20 100 2) = true ∧
      Table.ventes ∉ updated_at_trigger_tables := by
  decide

/-- C7 (amended).  On the four tables that carry an update timestamp —
garages, profiles, voitures, clients — every update passes through the
`update_updated_at_column` trigger, which sets the written row's
`updated_at` to the current time regardless of which fields the client
changed; the timestamp strictly advances whenever the clock is ahead of the
stored row's timestamp.  Sales, though updatable, have no update
timestamp. -/
theorem update_refreshes_timestamp (now : Nat)
    (gOld gNew : GarageRow) (pOld pNew : ProfileRow)
    (vOld vNew : VoitureRow) (cOld cNew : ClientRow)
    (hg : gOld.updated_at < now) (hp : pOld.updated_at < now)
    (hv : vOld.updated_at < now) (hc : cOld.updated_at < now) :
    ((update_garages_updated_at now gNew).updated_at = now ∧
      gOld.updated_at < (update_garages_updated_at now gNew).updated_at) ∧
    ((update_profiles_updated_at now pNew).updated_at = now ∧
      pOld.updated_at < (update_profiles_updated_at now pNew).updated_at) ∧
    ((update_voitures_updated_at now vNew).updated_at = now ∧
      vOld.updated_at < (update_voitures_updated_at now vNew).updated_at) ∧
    ((update_clients_updated_at now cNew).updated_at = now ∧
      cOld.updated_at < (update_clients_updated_at now cNew).updated_at) ∧
    Table.ventes ∉ updated_at_trigger_tables := by
  refine ⟨⟨rfl, hg⟩, ⟨rfl, hp⟩, ⟨rfl, hv⟩, ⟨rfl, hc⟩, by decide⟩

/-- Witness for the amended C7 at time 5 on sample rows stamped 0. -/
theorem update_refreshes_timestamp_witness :
    (update_garages_updated_at 5 (sampleGarage 1)).updated_at = 5 ∧
      (sampleVoiture 10 2).updated_at
        < (update_voitures_updated_at 5 (sampleVoiture 10 2)).updated_at :=
  ⟨(update_refreshes_timestamp 5 (sampleGarage 1) (sampleGarage 1)
      (sampleProfile 100 1 none) (sampleProfile 100 1 none)
      (sampleVoiture 10 2) (sampleVoiture 10 2) (sampleClient 20 2)
      (sampleClient 20 2) (by decide) (by decide) (by decide)
      (by decide)).1.1,
    (update_refreshes_timestamp 5 (sampleGarage 1) (sampleGarage 1)
      (sampleProfile 100 1 none) (sampleProfile 100 1 none)
      (sampleVoiture 10 2) (sampleVoiture 10 2) (sampleClient 20 2)
      (sampleClient 20 2) (by decide) (by decide) (by decide)
      (by decide)).2.2.1.2⟩

/-- A caller with no profile row, or whose profile rows all lack a garage
assignment, resolves to no garage. -/
theorem get_user_garage_none_of (db : Db) (uid : Nat)
    (h : (∀ p ∈ db.profiles, p.user_id ≠ uid) ∨
      (∀ p ∈ db.profiles, p.user_id = uid → p.garage_id = none)) :
    get_user_garage db uid = none := by
  rcases h with h | h
  · unfold get_user_garage
    rw [List.find?_eq_none.mpr (fun p hp => by simp [h p hp])]
    rfl
  · unfold get_user_garage
    cases hf : db.profiles.find? (fun p => p.user_id == uid) with
    | none => rfl
    | some p =>
      have hmem := List.mem_of_find?_eq_some hf
      have hpred := List.find?_some hf
      simp only [beq_iff_eq] at hpred
      simp [h p hmem hpred]

/-- C8.  A caller with no profile, or with a profile lacking a garage
assignment, and without the admin role, is denied every garage-scoped
operation: all four operations on vehicles, clients and sales, and reading
a garage. -/
theorem unassigned_caller_denied (db : Db) (uid : Nat)
    (hprof : (∀ p ∈ db.profiles, p.user_id ≠ uid) ∨
      (∀ p ∈ db.profiles, p.user_id = uid → p.garage_id = none))
    (ha : has_role db uid .admin = false) :
    (∀ r : GarageRow, garages_select db uid r = false) ∧
    (∀ v : VoitureRow, voitures_select db uid v = false ∧
      voitures_insert db uid v = false ∧ voitures_delete db uid v = false ∧
      (∀ w, voitures_update db uid v w = false)) ∧
    (∀ c : ClientRow, clients_select db uid c = false ∧
      clients_insert db uid c = false ∧ clients_delete db uid c = false ∧
      (∀ d, clients_update db uid c d = false)) ∧
    (∀ s : VenteRow, ventes_select db uid s = false ∧
      ventes_insert db uid s = false ∧
      (∀ t, ventes_update db uid s t = false) ∧
      ventes_delete db uid s = false) := by
  have hg := get_user_garage_none_of db uid hprof
  refine ⟨?_, ?_, ?_, ?_⟩ <;> intro x
  · simp [garages_select, ha, hg]
  · refine ⟨?_, ?_, ?_, ?_⟩ <;>
      simp [voitures_select, voitures_insert, voitures_delete,
        voitures_update, manage_cars_clause, ha, hg]
  · refine ⟨?_, ?_, ?_, ?_⟩ <;>
      simp [clients_select, clients_insert, clients_delete, clients_update,
        manage_clients_clause, ha, hg]
  · refine ⟨?_, ?_, ?_, ?_⟩ <;>
      simp [ventes_select, ventes_insert, ventes_update, ventes_delete,
        manage_sales_clause, ha, hg]

/-- Witness for C8: identity 7 has no profile in `dbManager` and no role,
and reads nothing. -/
theorem unassigned_caller_denied_witness :
    garages_select dbManager 7 (sampleGarage 1) = false ∧
      voitures_select dbManager 7 (sampleVoiture 11 1) = false :=
  have h := unassigned_caller_denied dbManager 7
    (Or.inl (by decide)) (by decide)
  ⟨h.1 (sampleGarage 1), (h.2.1 (sampleVoiture 11 1)).1⟩

/-- Inserting a profile for an identity that has none succeeds and appends
the row. -/
theorem insertProfile_of_fresh (db : Db) (p : ProfileRow)
    (h : ∀ q ∈ db.profiles, q.user_id ≠ p.user_id) :
    insertProfile db p = some { db with profiles := db.profiles ++ [p] } := by
  have hc : db.profiles.any (fun q => q.user_id == p.user_id) = false :=
    List.any_eq_false.mpr (fun q hq => by simp [h q hq])
  simp [insertProfile, hc]

/-- Inserting a role assignment for an identity that has none succeeds and
appends the row. -/
theorem insertUserRole_of_fresh (db : Db) (r : UserRoleRow)
    (h : ∀ q ∈ db.user_roles, q.user_id ≠ r.user_id) :
    insertUserRole db r
      = some { db with user_roles := db.user_roles ++ [r] } := by
  have hc : db.user_roles.any
      (fun q => q.user_id == r.user_id && decide (q.role = r.role))
        = false :=
    List.any_eq_false.mpr (fun q hq => by simp [h q hq])
  simp [insertUserRole, hc]

/-- C9.  Creating an identity that has no profile and no role yet succeeds
atomically and yields exactly one profile for it — name and surname
defaulting to `'Nouveau'` / `'Utilisateur'` when the metadata lacks them,
email copied from the identity — and exactly one `employe` role
assignment; afterwards any direct insertion of a second profile for the
same identity fails the `UNIQUE(user_id)` constraint. -/
theorem new_identity_profile_and_role (db : Db) (u : NewUser)
    (pid rid now : Nat)
    (hnop : ∀ p ∈ db.profiles, p.user_id ≠ u.id)
    (hnor : ∀ r ∈ db.user_roles, r.user_id ≠ u.id) :
    ∃ db2, handle_new_user db u pid rid now = some db2 ∧
      (db2.profiles.filter (fun p => p.user_id == u.id)).length = 1 ∧
      (∃ p ∈ db2.profiles, p.user_id = u.id ∧
        p.nom = u.meta_nom.getD "Nouveau" ∧
        p.prenom = u.meta_prenom.getD "Utilisateur" ∧
        p.email = u.email) ∧
      (db2.user_roles.filter (fun r =>
        r.user_id == u.id && decide (r.role = AppRole.employe))).length
          = 1 ∧
      (∀ q : ProfileRow, q.user_id = u.id → insertProfile db2 q = none) := by
  have hstep : handle_new_user db u pid rid now = some
      { db with
        profiles := db.profiles ++ [newProfileRow u pid now]
        user_roles := db.user_roles ++ [newUserRoleRow u rid now] } := by
    unfold handle_new_user
    rw [insertProfile_of_fresh db _ (fun q hq => hnop q hq)]
    exact insertUserRole_of_fresh _ _ (fun q hq => hnor q hq)
  refine ⟨_, hstep, ?_, ?_, ?_, ?_⟩
  · show (List.filter (fun p => p.user_id == u.id)
      (db.profiles ++ [newProfileRow u pid now])).length = 1
    rw [List.filter_append,
      List.filter_eq_nil_iff.mpr (fun p hp => by simp [hnop p hp])]
    simp [newProfileRow]
  · refine ⟨newProfileRow u pid now, ?_, rfl, rfl, rfl, rfl⟩
    show newProfileRow u pid now ∈ db.profiles ++ [newProfileRow u pid now]
    exact List.mem_append_right _ (List.mem_singleton_self _)
  · show (List.filter (fun r =>
      r.user_id == u.id && decide (r.role = AppRole.employe))
      (db.user_roles ++ [newUserRoleRow u rid now])).length = 1
    rw [List.filter_append,
      List.filter_eq_nil_iff.mpr (fun r hr => by simp [hnor r hr])]
    simp [newUserRoleRow]
  · intro q hq
    have hc : (List.any (db.profiles ++ [newProfileRow u pid now])
        (fun r => r.user_id == q.user_id)) = true := by
      simp [List.any_append, newProfileRow, hq]
    simp only [insertProfile]
    rw [if_pos hc]

/-- Witness for C9: identity 5 created over the empty database. -/
theorem new_identity_profile_and_role_witness :
    ∃ db2, handle_new_user dbEmpty
        { id := 5, email := some "x", meta_nom := none, meta_prenom := none }
        500 600 7 = some db2 ∧
      (db2.profiles.filter (fun p => p.user_id == 5)).length = 1 ∧
      (∃ p ∈ db2.profiles, p.user_id = 5 ∧ p.nom = "Nouveau" ∧
        p.prenom = "Utilisateur" ∧ p.email = some "x") ∧
      (db2.user_roles.filter (fun r =>
        r.user_id == 5 && decide (r.role = AppRole.employe))).length = 1 ∧
      (∀ q : ProfileRow, q.user_id = 5 → insertProfile db2 q = none) :=
  new_identity_profile_and_role dbEmpty
    { id := 5, email := some "x", meta_nom := none, meta_prenom := none }
    500 600 7 (by decide) (by decide)

/-- C10.  A successful garage delete removes every vehicle, client and sale
of that garage and no others, removes the garage, keeps every profile
(clearing the garage reference of those that pointed at the deleted
garage); and deleting a vehicle, client or profile referenced by an
existing sale is rejected by the `ON DELETE RESTRICT` constraints.
The non-null garage reference of vehicles, clients and sales is the
`NOT NULL` column type itself (`garage_id : Nat`, not `Option Nat`). -/
theorem garage_delete_cascades (db db2 : Db) (g : Nat)
    (h : deleteGarage db g = some db2) :
    (∀ v ∈ db2.voitures, v.garage_id ≠ g) ∧
    (∀ c ∈ db2.clients, c.garage_id ≠ g) ∧
    (∀ s ∈ db2.ventes, s.garage_id ≠ g) ∧
    (∀ x ∈ db2.garages, x.id ≠ g) ∧
    (∀ v ∈ db.voitures, v.garage_id ≠ g → v ∈ db2.voitures) ∧
    (∀ c ∈ db.clients, c.garage_id ≠ g → c ∈ db2.clients) ∧
    (∀ s ∈ db.ventes, s.garage_id ≠ g → s ∈ db2.ventes) ∧
    db2.profiles.length = db.profiles.length ∧
    (∀ p ∈ db.profiles, p.garage_id = some g →
      { p with garage_id := none } ∈ db2.profiles) ∧
    (∀ p ∈ db.profiles, p.garage_id ≠ some g → p ∈ db2.profiles) ∧
    (∀ (db3 : Db) (vid : Nat), (∃ s ∈ db3.ventes, s.voiture_id = vid) →
      deleteVoiture db3 vid = none) ∧
    (∀ (db3 : Db) (cid : Nat), (∃ s ∈ db3.ventes, s.client_id = cid) →
      deleteClient db3 cid = none) ∧
    (∀ (db3 : Db) (pid : Nat), (∃ s ∈ db3.ventes, s.employe_id = pid) →
      deleteProfile db3 pid = none) := by
  obtain ⟨hga, hvo, hcl, hve, hpr, -⟩ := deleteGarage_eq db g db2 h
  refine ⟨?_, ?_, ?_, ?_, ?_, ?_, ?_, ?_, ?_, ?_, ?_, ?_, ?_⟩
  · intro v hv
    rw [hvo] at hv
    exact (by simpa using (List.mem_filter.mp hv).2)
  · intro c hc
    rw [hcl] at hc
    exact (by simpa using (List.mem_filter.mp hc).2)
  · intro s hs
    rw [hve] at hs
    exact (by simpa using (List.mem_filter.mp hs).2)
  · intro x hx
    rw [hga] at hx
    exact (by simpa using (List.mem_filter.mp hx).2)
  · intro v hv hne
    rw [hvo]
    exact List.mem_filter.mpr ⟨hv, by simpa using hne⟩
  · intro c hc hne
    rw [hcl]
    exact List.mem_filter.mpr ⟨hc, by simpa using hne⟩
  · intro s hs hne
    rw [hve]
    exact List.mem_filter.mpr ⟨hs, by simpa using hne⟩
  · rw [hpr, List.length_map]
  · intro p hp hpg
    rw [hpr]
    exact List.mem_map.mpr ⟨p, hp, by simp [hpg]⟩
  · intro p hp hpg
    rw [hpr]
    exact List.mem_map.mpr ⟨p, hp, by simp [hpg]⟩
  · intro db3 vid ⟨s, hs, hsv⟩
    have hc : db3.ventes.any (fun t => t.voiture_id == vid) = true :=
      List.any_eq_true.mpr ⟨s, hs, by simp [hsv]⟩
    simp [deleteVoiture, hc]
  · intro db3 cid ⟨s, hs, hsc⟩
    have hc : db3.ventes.any (fun t => t.client_id == cid) = true :=
      List.any_eq_true.mpr ⟨s, hs, by simp [hsc]⟩
    simp [deleteClient, hc]
  · intro db3 pid ⟨s, hs, hsp⟩
    have hc : db3.ventes.any (fun t => t.employe_id == pid) = true :=
      List.any_eq_true.mpr ⟨s, hs, by simp [hsp]⟩
    simp [deleteProfile, hc]

/-- A database exercising the garage-delete cascade: garage 1 owns a
vehicle, a client and a sale, the seller's profile points at garage 1, and
garage 2 owns an unrelated vehicle. -/
def dbCascade : Db :=
  { garages := [sampleGarage 1, sampleGarage 2]
    profiles := [sampleProfile 100 4 (some 1)]
    user_roles := []
    voitures := [sampleVoiture 10 1, sampleVoiture 11 2]
    clients := [sampleClient 20 1]
    ventes := [sampleVente 30 10 20 100 1] }

/-- The state of `dbCascade` after deleting garage 1. -/
def dbCascadeAfter : Db :=
  { garages := [sampleGarage 2]
    profiles := [sampleProfile 100 4 none]
    user_roles := []
    voitures := [sampleVoiture 11 2]
    clients := []
    ventes := [] }

/-- Witness for C10 on `dbCascade`: the garage-2 vehicle survives the
cascade, the nulled profile is kept, and deleting the sale's vehicle
directly is rejected. -/
theorem garage_delete_cascades_witness :
    sampleVoiture 11 2 ∈ dbCascadeAfter.voitures ∧
      sampleProfile 100 4 none ∈ dbCascadeAfter.profiles ∧
      deleteVoiture dbCascade 10 = none := by
  have h := garage_delete_cascades dbCascade dbCascadeAfter 1 (by decide)
  refine ⟨h.2.2.2.2.1 (sampleVoiture 11 2) (by decide) (by decide), ?_, ?_⟩
  · have := h.2.2.2.2.2.2.2.2.1 (sampleProfile 100 4 (some 1)) (by decide)
      rfl
    simpa [sampleProfile] using this
  · exact h.2.2.2.2.2.2.2.2.2.2.1 dbCascade 10
      ⟨sampleVente 30 10 20 100 1, by decide, rfl⟩

end AutoSales
